import Mathlib

/-!
Shallow embedding of the request-handler layer of a small todo/user CRUD
HTTP service (src/main.rs). The database is modelled as explicit state: a
list of todo rows and a list of user rows, plus the next id each SERIAL
column would assign. Each handler becomes a pure function from the request
data and the database state to an outcome and the post-state.

Column nullability follows the source: in the `todos` table the
`description` column is nullable (the create handler receives it back as an
option and unwraps it), while `id`, `title`, `completed` are not; in the
`Users` table all three columns are non-null (the handlers read them into
non-optional fields).

Outcomes distinguish a normal HTTP response, an actix internal-server-error
(`err`, rendered as HTTP 500), and a Rust panic (`crash`, raised by
`expect`/`unwrap`, which produces no HTTP response at all). Driver-level
connection failures are injected (`DbRead.fail`) only in the handlers whose
failure branch the specification discusses: the todo list and todo delete
handlers. The remaining handlers' error paths are determined by the state
(a fetch that finds no row), which the embedding models exactly.
-/

namespace TodoApi

/-- A row of the `todos` table: id, title, completed NOT NULL; description nullable. -/
structure TodoRow where
  id : Int
  title : String
  completed : Bool
  description : Option String
  deriving DecidableEq

/-- A row of the `Users` table: all columns non-null. -/
structure UserRow where
  id : Int
  name : String
  password : String
  deriving DecidableEq

/-- The database state: both tables plus the next SERIAL id of each. -/
structure Db where
  todos : List TodoRow
  users : List UserRow
  nextTodoId : Int
  nextUserId : Int
  deriving DecidableEq

/-- The Rust `Todo` struct (all fields optional); it is both the create-todo
request body and the row shape serialized by list/fetch responses. -/
structure Todo where
  id : Option Int
  title : Option String
  completed : Option Bool
  description : Option String
  deriving DecidableEq

/-- The Rust `UpdateTaskReq` struct: the PATCH /todos/{id} body. -/
structure UpdateTaskReq where
  title : Option String
  completed : Option Bool
  description : Option String
  deriving DecidableEq

/-- The Rust `UpdateUserReq` struct: the PATCH /user/{id} body. -/
structure UpdateUserReq where
  name : Option String
  password : Option String
  deriving DecidableEq

/-- The Rust `NewUser` struct: the POST /register body. -/
structure NewUser where
  name : String
  password : String
  deriving DecidableEq

/-- The Rust `TodoResponse` struct returned by create_todo. -/
structure TodoResponse where
  id : Int
  title : String
  completed : Bool
  description : String
  deriving DecidableEq

/-- The Rust `UserResponse` struct returned by create_user: id and name only. -/
structure UserResponse where
  id : Int
  name : String
  deriving DecidableEq

/-- How a `todos` row is deserialized into the all-optional `Todo` struct. -/
def TodoRow.toTodo (r : TodoRow) : Todo :=
  ⟨some r.id, some r.title, some r.completed, r.description⟩

/-- HTTP status codes the handlers produce. -/
inductive Status where
  | ok
  | created
  | noContent
  | notFound
  | internalServerError
  deriving DecidableEq

/-- JSON (or text) response bodies the handlers produce. -/
inductive Body where
  | todoList (items : List Todo)
  | todo (item : Todo)
  | todoResp (item : TodoResponse)
  | userResp (item : UserResponse)
  | user (item : UserRow)
  | text (s : String)
  deriving DecidableEq

/-- Outcome of running a handler: an HTTP response with a status and body, an
actix internal server error (rendered as HTTP 500 with the message), or a
Rust panic (no HTTP response is produced). -/
inductive HandlerResult where
  | ok (status : Status) (body : Body)
  | err (msg : String)
  | crash (msg : String)
  deriving DecidableEq

/-- Whether an outcome is an actix internal-server-error, i.e. an HTTP 500
response. -/
def isServerErrorResponse : HandlerResult → Bool
  | .err _ => true
  | _ => false

/-- Whether an outcome produces an HTTP response at all (a panic does not). -/
def isHttpResponse : HandlerResult → Bool
  | .ok _ _ => true
  | .err _ => true
  | .crash _ => false

/-- Success or driver-level failure of a database call, injected where the
specification discusses that failure branch. -/
inductive DbRead where
  | ok
  | fail
  deriving DecidableEq

/-- `SELECT * FROM todos WHERE id = $1` (first matching row, if any). -/
def selectTodoById (st : Db) (i : Int) : Option TodoRow :=
  st.todos.find? (fun x => x.id == i)

/-- `SELECT id, name, password FROM Users WHERE id = $1` (first matching row). -/
def selectUserById (st : Db) (i : Int) : Option UserRow :=
  st.users.find? (fun x => x.id == i)

/-- `UPDATE todos SET title = $1, completed = $2, description = $3 WHERE id = $4`:
returns the updated table and the number of rows affected. -/
def updateTodosSet : List TodoRow → String → Bool → String → Int → List TodoRow × Nat
  | [], _, _, _, _ => ([], 0)
  | a :: as, t, c, d, i =>
    let rest := updateTodosSet as t c d i
    if a.id == i then
      ({ a with title := t, completed := c, description := some d } :: rest.1, rest.2 + 1)
    else
      (a :: rest.1, rest.2)

/-- `UPDATE Users SET name = COALESCE($1, name), password = COALESCE($2, password)
WHERE id = $3`: returns the updated table and the number of rows affected. -/
def updateUsersCoalesce : List UserRow → Option String → Option String → Int → List UserRow × Nat
  | [], _, _, _ => ([], 0)
  | a :: as, n?, p?, i =>
    let rest := updateUsersCoalesce as n? p? i
    if a.id == i then
      ({ a with name := n?.getD a.name, password := p?.getD a.password } :: rest.1, rest.2 + 1)
    else
      (a :: rest.1, rest.2)

/-- Handler for `GET /todos` (get_todos in the source): fetches every row and
serializes it; the fetch result is unwrapped with `expect`, so a driver
failure is a panic, not an HTTP response. -/
def get_todos (st : Db) (db : DbRead) : HandlerResult :=
  match db with
  | .ok => .ok .ok (.todoList (st.todos.map TodoRow.toTodo))
  | .fail => .crash "Failed to fetch todos"

/-- Handler for `PATCH /todos/{todo_id}` (update_todo in the source): binds
each body field with `unwrap_or` defaults, runs the unconditional UPDATE,
then fetches the row by id with `fetch_one`; a missing row there becomes an
actix internal server error. -/
def update_todo (st : Db) (todo_data : UpdateTaskReq) (todo_id : Int) : HandlerResult × Db :=
  let upd := updateTodosSet st.todos (todo_data.title.getD "Untitled")
      (todo_data.completed.getD false) (todo_data.description.getD "") todo_id
  let st' : Db := { st with todos := upd.1 }
  match st'.todos.find? (fun x => x.id == todo_id) with
  | some t => (.ok .ok (.todo (TodoRow.toTodo t)), st')
  | none => (.err "no rows returned by a query that expected to return at least one row", st')

/-- Handler for `POST /register` (create_user in the source): INSERT RETURNING
id, then a second `SELECT id, name` by that id; responds 201 with the
`UserResponse` projection {id, name}. -/
def create_user (st : Db) (new_user : NewUser) : HandlerResult × Db :=
  let row : UserRow := ⟨st.nextUserId, new_user.name, new_user.password⟩
  let st' : Db := { st with users := st.users ++ [row], nextUserId := st.nextUserId + 1 }
  match st'.users.find? (fun x => x.id == row.id) with
  | some u => (.ok .created (.userResp ⟨u.id, u.name⟩), st')
  | none => (.err "Database query failed", st')

/-- Handler for `PATCH /user/{user_id}` (update_user in the source): checks
existence first (404 if absent), runs the COALESCE update, re-checks the
affected-row count (404 if zero), then fetches and returns the full row. -/
def update_user (st : Db) (user_id : Int) (user_data : UpdateUserReq) : HandlerResult × Db :=
  match st.users.find? (fun u => u.id == user_id) with
  | none => (.ok .notFound (.text "User not found"), st)
  | some _ =>
    let upd := updateUsersCoalesce st.users user_data.name user_data.password user_id
    let st' : Db := { st with users := upd.1 }
    if upd.2 == 0 then
      (.ok .notFound (.text "User not found"), st')
    else
      match st'.users.find? (fun u => u.id == user_id) with
      | some u => (.ok .ok (.user u), st')
      | none => (.err "Database query failed", st')

/-- Handler for `DELETE /todos/{todo_id}` (delete_todo in the source): issues
the DELETE unconditionally; 204 on success, 500 on a driver failure. -/
def delete_todo (st : Db) (todo_id : Int) (db : DbRead) : HandlerResult × Db :=
  match db with
  | .ok => (.ok .noContent (.text ""), { st with todos := st.todos.filter (fun r => !(r.id == todo_id)) })
  | .fail => (.ok .internalServerError (.text "Failed to delete todo"), st)

/-- Handler for `POST /todos` (create_todo in the source): binds each body
field with `unwrap_or` defaults, INSERT RETURNING the new row, then builds a
`TodoResponse`, unwrapping the (nullable) returned description. -/
def create_todo (st : Db) (new_todo : Todo) : HandlerResult × Db :=
  let row : TodoRow := ⟨st.nextTodoId, new_todo.title.getD "Untitled",
      new_todo.completed.getD false, some (new_todo.description.getD "")⟩
  let st' : Db := { st with todos := st.todos ++ [row], nextTodoId := st.nextTodoId + 1 }
  match row.description with
  | some d => (.ok .created (.todoResp ⟨row.id, row.title, row.completed, d⟩), st')
  | none => (.crash "called Option unwrap on a None value", st')

/-- Well-formedness of the todos table: the next SERIAL id is positive and
strictly greater than every id already in the table. -/
def todosWF (st : Db) : Prop :=
  1 ≤ st.nextTodoId ∧ ∀ r ∈ st.todos, r.id < st.nextTodoId

/-- Well-formedness of the Users table: the next SERIAL id is positive and
strictly greater than every id already in the table. -/
def usersWF (st : Db) : Prop :=
  1 ≤ st.nextUserId ∧ ∀ u ∈ st.users, u.id < st.nextUserId

instance (st : Db) : Decidable (todosWF st) :=
  inferInstanceAs (Decidable (1 ≤ st.nextTodoId ∧ ∀ r ∈ st.todos, r.id < st.nextTodoId))

instance (st : Db) : Decidable (usersWF st) :=
  inferInstanceAs (Decidable (1 ≤ st.nextUserId ∧ ∀ u ∈ st.users, u.id < st.nextUserId))

/-- After the unconditional todo UPDATE, fetching by id finds the first
previously-matching row with every settable column overwritten. -/
theorem updateTodosSet_find (rows : List TodoRow) (t : String) (c : Bool) (d : String)
    (i : Int) (r : TodoRow) (h : rows.find? (fun x => x.id == i) = some r) :
    (updateTodosSet rows t c d i).1.find? (fun x => x.id == i) =
      some { r with title := t, completed := c, description := some d } := by
  induction rows with
  | nil => simp [List.find?] at h
  | cons a as ih =>
    by_cases ha : a.id = i
    · rw [List.find?_cons_of_pos _ (by simp [ha])] at h
      cases h
      simp [updateTodosSet, ha, List.find?_cons_of_pos]
    · rw [List.find?_cons_of_neg _ (by simp [ha])] at h
      rw [updateTodosSet]
      simp only [ha, beq_iff_eq, if_false]
      rw [List.find?_cons_of_neg _ (by simp [ha])]
      exact ih h

/-- When no row matches the id, the todo UPDATE leaves the table unchanged
and affects zero rows. -/
theorem updateTodosSet_of_none (rows : List TodoRow) (t : String) (c : Bool) (d : String)
    (i : Int) (h : rows.find? (fun x => x.id == i) = none) :
    updateTodosSet rows t c d i = (rows, 0) := by
  induction rows with
  | nil => rfl
  | cons a as ih =>
    rw [List.find?_cons] at h
    cases hb : (a.id == i) with
    | true => rw [hb] at h; simp at h
    | false =>
      rw [hb] at h
      rw [updateTodosSet, ih h]
      simp [hb]

/-- After the COALESCE user UPDATE, fetching by id finds the first
previously-matching row with each supplied field replaced and each omitted
field preserved; moreover at least one row was affected. -/
theorem updateUsersCoalesce_find (rows : List UserRow) (n? p? : Option String)
    (i : Int) (u : UserRow) (h : rows.find? (fun x => x.id == i) = some u) :
    (updateUsersCoalesce rows n? p? i).1.find? (fun x => x.id == i) =
      some { u with name := n?.getD u.name, password := p?.getD u.password } ∧
    (updateUsersCoalesce rows n? p? i).2 ≠ 0 := by
  induction rows with
  | nil => simp [List.find?] at h
  | cons a as ih =>
    by_cases ha : a.id = i
    · rw [List.find?_cons_of_pos _ (by simp [ha])] at h
      cases h
      constructor
      · simp [updateUsersCoalesce, ha, List.find?_cons_of_pos]
      · rw [updateUsersCoalesce]
        simp [ha]
    · rw [List.find?_cons_of_neg _ (by simp [ha])] at h
      rcases ih h with ⟨ih1, ih2⟩
      constructor
      · rw [updateUsersCoalesce]
        simp only [ha, beq_iff_eq, if_false]
        rw [List.find?_cons_of_neg _ (by simp [ha])]
        exact ih1
      · rw [updateUsersCoalesce]
        simp only [ha, beq_iff_eq, if_false]
        exact ih2

/-- Searching an appended list skips a prefix in which nothing matches. -/
theorem find_past_unmatched {α : Type} (p : α → Bool) (xs ys : List α)
    (h : xs.find? p = none) : (xs ++ ys).find? p = ys.find? p := by
  induction xs with
  | nil => rfl
  | cons a as ih =>
    rw [List.find?_cons] at h
    cases hb : p a with
    | true => rw [hb] at h; simp at h
    | false =>
      rw [List.cons_append, List.find?_cons, hb]
      rw [hb] at h
      exact ih h

/-- In a well-formed table every existing id differs from the next SERIAL id,
so fetching a freshly inserted row by its id finds exactly that row. -/
theorem find_fresh_insert {α : Type} (p : α → Bool) (xs : List α) (x : α)
    (hx : p x = true) (h : ∀ a ∈ xs, p a = false) :
    (xs ++ [x]).find? p = some x := by
  rw [find_past_unmatched p xs [x] (List.find?_eq_none.mpr (by simpa using h))]
  rw [List.find?_cons_of_pos _ hx]

/-- C1: the task partial-update handler substitutes the hard-coded defaults
("Untitled", false, "") for every omitted body field and overwrites the
stored row with them unconditionally: after the update, the stored row (and
the echoed response) carries exactly the defaulted request fields, with no
dependence on the previously stored title/completed/description. -/
theorem update_todo_resets_omitted_fields (st : Db) (req : UpdateTaskReq) (i : Int)
    (r : TodoRow) (h : selectTodoById st i = some r) :
    (update_todo st req i).1 =
      .ok .ok (.todo (TodoRow.toTodo ⟨r.id, req.title.getD "Untitled",
        req.completed.getD false, some (req.description.getD "")⟩)) ∧
    selectTodoById (update_todo st req i).2 i =
      some ⟨r.id, req.title.getD "Untitled", req.completed.getD false,
        some (req.description.getD "")⟩ := by
  have h' : st.todos.find? (fun x => x.id == i) = some r := h
  have hf := updateTodosSet_find st.todos (req.title.getD "Untitled")
      (req.completed.getD false) (req.description.getD "") i r h'
  constructor
  · simp only [update_todo]
    rw [hf]
  · simp only [update_todo, selectTodoById]
    rw [hf]
    exact hf

/-- C1 witness: a stored task titled "Buy milk" patched with only
completed = true comes back with title "Untitled" and description "". -/
theorem update_todo_resets_omitted_fields_witness :
    selectTodoById ⟨[⟨1, "Buy milk", false, some "note"⟩], [], 2, 1⟩ 1 =
      some ⟨1, "Buy milk", false, some "note"⟩ ∧
    ((update_todo ⟨[⟨1, "Buy milk", false, some "note"⟩], [], 2, 1⟩ ⟨none, some true, none⟩ 1).1 =
      .ok .ok (.todo (TodoRow.toTodo ⟨1, "Untitled", true, some ""⟩)) ∧
    selectTodoById
      (update_todo ⟨[⟨1, "Buy milk", false, some "note"⟩], [], 2, 1⟩ ⟨none, some true, none⟩ 1).2 1 =
      some ⟨1, "Untitled", true, some ""⟩) :=
  ⟨rfl, update_todo_resets_omitted_fields ⟨[⟨1, "Buy milk", false, some "note"⟩], [], 2, 1⟩
    ⟨none, some true, none⟩ 1 ⟨1, "Buy milk", false, some "note"⟩ rfl⟩

/-- C2: evaluating both update handlers at the flagged inputs. The task
handler violates the claimed invariant: a stored task titled "Buy milk"
patched with only completed = true ends up stored with title "Untitled",
while the user handler preserves the omitted password as the claim demands. -/
theorem update_handlers_divergence_at_flagged_input :
    selectTodoById (update_todo ⟨[⟨1, "Buy milk", false, some ""⟩], [], 2, 1⟩
        ⟨none, some true, none⟩ 1).2 1 =
      some ⟨1, "Untitled", true, some ""⟩ ∧
    selectUserById (update_user ⟨[], [⟨1, "alice", "secret"⟩], 1, 2⟩ 1 ⟨some "bob", none⟩).2 1 =
      some ⟨1, "bob", "secret"⟩ :=
  ⟨rfl, rfl⟩

/-- C3: the user partial-update handler has coalesce semantics: on an
existing user, each supplied field is replaced and each omitted field keeps
its stored value, both in the stored row and in the returned record; with a
name-only body the stored password is unchanged and a fetch after the
update returns it. -/
theorem update_user_coalesce_preserves (st : Db) (i : Int) (u : UserRow)
    (body : UpdateUserReq) (h : selectUserById st i = some u) :
    (update_user st i body).1 =
      .ok .ok (.user ⟨u.id, body.name.getD u.name, body.password.getD u.password⟩) ∧
    selectUserById (update_user st i body).2 i =
      some ⟨u.id, body.name.getD u.name, body.password.getD u.password⟩ := by
  have h' : st.users.find? (fun x => x.id == i) = some u := h
  obtain ⟨hf, hn⟩ := updateUsersCoalesce_find st.users body.name body.password i u h'
  have hz : ((updateUsersCoalesce st.users body.name body.password i).2 == 0) = false := by
    simpa [beq_eq_false_iff_ne] using hn
  constructor
  · simp only [update_user]
    rw [h', hz, hf]
    simp
  · simp only [update_user, selectUserById]
    rw [h', hz, hf]
    simp
    rw [hf]

/-- C3 witness: updating user 1 (alice/secret) with a body containing only
the name "bob" stores and returns password "secret" unchanged. -/
theorem update_user_coalesce_preserves_witness :
    selectUserById ⟨[], [⟨1, "alice", "secret"⟩], 1, 2⟩ 1 = some ⟨1, "alice", "secret"⟩ ∧
    ((update_user ⟨[], [⟨1, "alice", "secret"⟩], 1, 2⟩ 1 ⟨some "bob", none⟩).1 =
      .ok .ok (.user ⟨1, "bob", "secret"⟩) ∧
    selectUserById (update_user ⟨[], [⟨1, "alice", "secret"⟩], 1, 2⟩ 1 ⟨some "bob", none⟩).2 1 =
      some ⟨1, "bob", "secret"⟩) :=
  ⟨rfl, update_user_coalesce_preserves ⟨[], [⟨1, "alice", "secret"⟩], 1, 2⟩ 1
    ⟨1, "alice", "secret"⟩ ⟨some "bob", none⟩ rfl⟩

/-- C4: creating a task from an empty body responds with the created status
and a record with title "Untitled", completed false, description "", and the
next SERIAL id, which on a well-formed table is positive and fresh; the
stored row holds the defaults (description stored as a non-null value), not
nulls. -/
theorem create_todo_empty_defaults (st : Db) (h : todosWF st) :
    (create_todo st ⟨none, none, none, none⟩).1 =
      .ok .created (.todoResp ⟨st.nextTodoId, "Untitled", false, ""⟩) ∧
    1 ≤ st.nextTodoId ∧
    (∀ r ∈ st.todos, r.id ≠ st.nextTodoId) ∧
    selectTodoById (create_todo st ⟨none, none, none, none⟩).2 st.nextTodoId =
      some ⟨st.nextTodoId, "Untitled", false, some ""⟩ := by
  obtain ⟨h1, h2⟩ := h
  refine ⟨rfl, h1, fun r hr => ne_of_lt (h2 r hr), ?_⟩
  exact find_fresh_insert (fun x => x.id == st.nextTodoId) st.todos
    ⟨st.nextTodoId, "Untitled", false, some ""⟩ (by simp)
    (fun a ha => by simp only [beq_eq_false_iff_ne]; exact ne_of_lt (h2 a ha))

/-- C4 witness: creating a task from an empty body on an empty, well-formed
database yields id 1 with the three defaults, stored non-null. -/
theorem create_todo_empty_defaults_witness :
    todosWF ⟨[], [], 1, 1⟩ ∧
    ((create_todo ⟨[], [], 1, 1⟩ ⟨none, none, none, none⟩).1 =
      .ok .created (.todoResp ⟨1, "Untitled", false, ""⟩) ∧
    (1 : Int) ≤ 1 ∧
    (∀ r ∈ ([] : List TodoRow), r.id ≠ 1) ∧
    selectTodoById (create_todo ⟨[], [], 1, 1⟩ ⟨none, none, none, none⟩).2 1 =
      some ⟨1, "Untitled", false, some ""⟩) :=
  ⟨by decide, create_todo_empty_defaults ⟨[], [], 1, 1⟩ (by decide)⟩

/-- C5: updating a task id with no matching row: the UPDATE affects zero
rows, the follow-up fetch-by-id finds nothing, so the handler ends in an
actix internal server error (not a not-found response) and the database
state is unchanged — in particular no row is created. -/
theorem update_todo_missing_id (st : Db) (req : UpdateTaskReq) (i : Int)
    (h : selectTodoById st i = none) :
    (updateTodosSet st.todos (req.title.getD "Untitled") (req.completed.getD false)
        (req.description.getD "") i).2 = 0 ∧
    (update_todo st req i).1 =
      .err "no rows returned by a query that expected to return at least one row" ∧
    (update_todo st req i).2 = st := by
  have h' : st.todos.find? (fun x => x.id == i) = none := h
  have h0 := updateTodosSet_of_none st.todos (req.title.getD "Untitled")
      (req.completed.getD false) (req.description.getD "") i h'
  refine ⟨by rw [h0], ?_, ?_⟩
  · simp only [update_todo, h0]
    rw [h']
  · simp only [update_todo, h0]
    rw [h']

/-- C5 witness: patching task id 5 on an empty table affects zero rows,
returns the internal error, and leaves the database unchanged. -/
theorem update_todo_missing_id_witness :
    selectTodoById ⟨[], [], 1, 1⟩ 5 = none ∧
    ((updateTodosSet ([] : List TodoRow) "x" false "" 5).2 = 0 ∧
    (update_todo ⟨[], [], 1, 1⟩ ⟨some "x", none, none⟩ 5).1 =
      .err "no rows returned by a query that expected to return at least one row" ∧
    (update_todo ⟨[], [], 1, 1⟩ ⟨some "x", none, none⟩ 5).2 = ⟨[], [], 1, 1⟩) :=
  ⟨rfl, update_todo_missing_id ⟨[], [], 1, 1⟩ ⟨some "x", none, none⟩ 5 rfl⟩

/-- C6: updating a user id with no matching row returns the not-found
response and leaves the database state exactly as it was — no row is
created as a side effect. -/
theorem update_user_missing_id (st : Db) (i : Int) (body : UpdateUserReq)
    (h : selectUserById st i = none) :
    update_user st i body = (.ok .notFound (.text "User not found"), st) := by
  have h' : st.users.find? (fun x => x.id == i) = none := h
  simp only [update_user]
  rw [h']

/-- C6 witness: patching user id 7 on an empty Users table returns
not-found and changes nothing. -/
theorem update_user_missing_id_witness :
    selectUserById ⟨[], [], 1, 1⟩ 7 = none ∧
    update_user ⟨[], [], 1, 1⟩ 7 ⟨none, some "pw"⟩ =
      (.ok .notFound (.text "User not found"), ⟨[], [], 1, 1⟩) :=
  ⟨rfl, update_user_missing_id ⟨[], [], 1, 1⟩ 7 ⟨none, some "pw"⟩ rfl⟩

/-- C7: for every task id — whether or not a matching row exists — the
delete handler issues the DELETE and responds no-content; the post-state is
the table with the matching rows removed (unchanged when none match). -/
theorem delete_todo_always_no_content (st : Db) (i : Int) :
    (delete_todo st i .ok).1 = .ok .noContent (.text "") ∧
    (delete_todo st i .ok).2 =
      { st with todos := st.todos.filter (fun r => !(r.id == i)) } :=
  ⟨rfl, rfl⟩

/-- C8: a successful user create responds created with exactly the
projection {id, name}: the id is the fresh SERIAL id, the name is the
request name, and the response is identical for any two supplied passwords
(the password value does not flow into the response). -/
theorem create_user_response_hides_password (st : Db) (nu : NewUser) (p₁ p₂ : String)
    (h : usersWF st) :
    (create_user st nu).1 = .ok .created (.userResp ⟨st.nextUserId, nu.name⟩) ∧
    (create_user st ⟨nu.name, p₁⟩).1 = (create_user st ⟨nu.name, p₂⟩).1 := by
  obtain ⟨h1, h2⟩ := h
  have key : ∀ pw : String,
      (create_user st ⟨nu.name, pw⟩).1 = .ok .created (.userResp ⟨st.nextUserId, nu.name⟩) := by
    intro pw
    have hf := find_fresh_insert (fun x => x.id == st.nextUserId) st.users
        ⟨st.nextUserId, nu.name, pw⟩ (by simp)
        (fun a ha => by simp only [beq_eq_false_iff_ne]; exact ne_of_lt (h2 a ha))
    simp only [create_user]
    rw [hf]
  exact ⟨key nu.password, (key p₁).trans (key p₂).symm⟩

/-- C8 witness: registering alice/secret on an empty, well-formed database
returns created with body exactly {id 1, name alice}, and the response is
the same with a different password. -/
theorem create_user_response_hides_password_witness :
    usersWF ⟨[], [], 1, 1⟩ ∧
    ((create_user ⟨[], [], 1, 1⟩ ⟨"alice", "secret"⟩).1 =
      .ok .created (.userResp ⟨1, "alice"⟩) ∧
    (create_user ⟨[], [], 1, 1⟩ ⟨"alice", "secret"⟩).1 =
      (create_user ⟨[], [], 1, 1⟩ ⟨"alice", "other"⟩).1) :=
  ⟨by decide, create_user_response_hides_password ⟨[], [], 1, 1⟩ ⟨"alice", "secret"⟩
    "secret" "other" (by decide)⟩

/-- C9 counterexample: when the todo-list fetch fails, the handler does not
produce an internal-error (HTTP 500) response — it panics through expect,
producing no HTTP response at all. -/
theorem get_todos_fail_is_panic_not_500 :
    get_todos ⟨[], [], 1, 1⟩ .fail = .crash "Failed to fetch todos" ∧
    isServerErrorResponse (get_todos ⟨[], [], 1, 1⟩ .fail) = false ∧
    isHttpResponse (get_todos ⟨[], [], 1, 1⟩ .fail) = false :=
  ⟨rfl, rfl, rfl⟩

/-- C9 (amended): the task list operation takes no inputs and on success
returns every task row serialized; when the database read fails the handler
panics via expect — with no partial results, but also with no HTTP 500
response. -/
theorem get_todos_list_or_panic (st : Db) :
    get_todos st .ok = .ok .ok (.todoList (st.todos.map TodoRow.toTodo)) ∧
    get_todos st .fail = .crash "Failed to fetch todos" ∧
    isHttpResponse (get_todos st .fail) = false :=
  ⟨rfl, rfl, rfl⟩

/-- C10: the task-create handler always binds a non-null description (the
request description defaulted to ""), so the row returned by the INSERT has
the description present, the unwrap succeeds (the handler never reaches the
crash branch), and the response echoes exactly the inserted values. -/
theorem create_todo_unwrap_never_panics (st : Db) (nt : Todo) :
    (create_todo st nt).1 =
      .ok .created (.todoResp ⟨st.nextTodoId, nt.title.getD "Untitled",
        nt.completed.getD false, nt.description.getD ""⟩) :=
  rfl

end TodoApi
